import Mathlib

/-!
# Katib experiment controller: trial instantiation and finalizer update

A shallow embedding of `pkg/controller.v1alpha3/experiment/experiment_util.go`.

The two methods of `ReconcileExperiment` embedded here, `createTrialInstance` and
`updateFinalizers`, are sequences of calls to collaborators that live outside the
file (the random-name generator, the owner-reference linker, the manifest
generator, the YAML/JSON decoder, the cluster client and the DB manager client).
Those collaborators are fields of the `ReconcileExperiment` record, so every
theorem holds for all of their possible behaviours.  Each method returns, next to
its Go results, the ordered list of collaborator calls it issued, with the
arguments of each call.

The logger is a collaborator too.  Its calls with a well-formed key/value list (lines 24,
32, 75, 90, 98, 101 and 107) return whatever the sink and change nothing the methods
compute with, so they are left out.  The call of line 52 passes a key/value list of odd
length, one value without a key; whether such a call returns depends on the sink (the
production zap sink logs and returns, the development one panics), so that call is a
field of the record and `createTrialInstance` may end in a panic there.
-/

namespace Katib

/-- Go `error` value, identified by its message. -/
abbrev Error := String

/-- Go `time.Time` as far as `IsZero` reads it: seconds and nanoseconds since
January 1, year 1, 00:00:00 UTC. -/
structure Time where
  sec : Int
  nsec : Nat
deriving DecidableEq, Repr

/-- Go `time.Time.IsZero`. -/
def Time.IsZero (t : Time) : Bool :=
  t.sec == 0 && t.nsec == 0

/-- The method `IsZero` of `*metav1.Time`: a nil pointer is zero, otherwise the wrapped
time decides. -/
def IsZero : Option Time → Bool
  | none => true
  | some t => t.IsZero

/-- The type `metav1.OwnerReference`. -/
structure OwnerReference where
  apiVersion : String
  kind : String
  name : String
  uid : String
  controller : Bool
  blockOwnerDeletion : Bool
deriving DecidableEq, Repr

namespace common

/-- The type `common.ParameterAssignment`. -/
structure ParameterAssignment where
  name : String
  value : String
deriving DecidableEq, Repr

/-- The type `common.ObjectiveSpec`; the zero value has empty strings and no goal.
The numeric goal is only ever copied, it is carried as its textual form. -/
structure ObjectiveSpec where
  type : String := ""
  goal : Option String := none
  objectiveMetricName : String := ""
  additionalMetricNames : List String := []
deriving DecidableEq, Repr

end common

namespace apiv1alpha3

/-- The message `ParameterAssignment` of the manager API. -/
structure ParameterAssignment where
  name : String
  value : String
deriving DecidableEq, Repr

/-- The message `TrialSpec.ParameterAssignments` of the manager API. -/
structure ParameterAssignments where
  assignments : List ParameterAssignment
deriving DecidableEq, Repr

/-- The message `TrialSpec` of the manager API; a nil section is `none`. -/
structure TrialSpec where
  parameterAssignments : Option ParameterAssignments
deriving DecidableEq, Repr

/-- The message `Trial` of the manager API: the candidate handed to `createTrialInstance`. -/
structure Trial where
  name : String
  spec : Option TrialSpec
deriving DecidableEq, Repr

end apiv1alpha3

namespace experimentsv1alpha3

/-- The experiment's trial-template section. -/
structure TrialTemplate where
  retain : Bool
  goTemplate : String
deriving DecidableEq, Repr

/-- The experiment's metrics-collector section. -/
structure MetricsCollectorSpec where
  retain : Bool
  collector : String
  source : String
deriving DecidableEq, Repr

/-- The type `ExperimentSpec`, restricted to the fields the two methods read. -/
structure ExperimentSpec where
  objective : common.ObjectiveSpec
  trialTemplate : Option TrialTemplate
  metricsCollectorSpec : Option MetricsCollectorSpec
deriving DecidableEq, Repr

/-- The type `Experiment`: object metadata and spec. -/
structure Experiment where
  name : String
  namespace_ : String
  uid : String
  deletionTimestamp : Option Time
  finalizers : List String
  spec : ExperimentSpec
deriving DecidableEq, Repr

/-- The method `SetFinalizers` of the object metadata. -/
def Experiment.SetFinalizers (e : Experiment) (finalizers : List String) : Experiment :=
  { e with finalizers := finalizers }

end experimentsv1alpha3

namespace trialsv1alpha3

/-- The field `MetricsCollector` of the trial spec. -/
structure MetricsCollector where
  collector : String := ""
  source : String := ""
deriving DecidableEq, Repr

/-- The type `TrialSpec`; the defaults are Go's zero values. -/
structure TrialSpec where
  objective : common.ObjectiveSpec := {}
  parameterAssignments : List common.ParameterAssignment := []
  runSpec : String := ""
  retainRun : Bool := false
  metricsCollectorSpec : String := ""
  retainMetricsCollector : Bool := false
  metricsCollector : MetricsCollector := {}
deriving DecidableEq, Repr

/-- The type `Trial`; the defaults are Go's zero values, so that `{}` is `&Trial{}`.
A Go map of labels is an association list. -/
structure Trial where
  name : String := ""
  namespace_ : String := ""
  labels : List (String × String) := []
  ownerReferences : List OwnerReference := []
  spec : TrialSpec := {}
deriving DecidableEq, Repr

end trialsv1alpha3

open experimentsv1alpha3 (Experiment)
open trialsv1alpha3 (Trial)

/-- The decoded manifest `unstructured.Unstructured`, as far as the method reads it:
what `GetKind` returns. -/
structure Unstructured where
  kind : String
deriving DecidableEq, Repr

/-- The method `GetKind` of the decoded manifest. -/
def Unstructured.GetKind (u : Unstructured) : String := u.kind

/-- The type `reconcile.Result`; `{}` is the zero value. -/
structure Result where
  requeue : Bool := false
  requeueAfter : Nat := 0
deriving DecidableEq, Repr

/-- One call to a collaborator, with its arguments. -/
inductive Call where
  | SetControllerReference (owner : Experiment) (object : Trial)
  | GetRunSpecWithHyperParameters (experiment : Experiment) (experimentName trialName trialNamespace : String)
      (hps : List apiv1alpha3.ParameterAssignment)
  | Decode (text : String) (bufSize : Nat)
  | GetMetricsCollectorManifest (experimentName trialName jobKind trialNamespace : String)
      (metricNames : List String) (mcSpec : Option experimentsv1alpha3.MetricsCollectorSpec)
  | Create (trial : Trial)
  | DeleteExperimentInDB (inst : Experiment)
  | Update (inst : Experiment)
  | LoggerError (err : Error) (msg : String) (keysAndValues : List String)
deriving DecidableEq, Repr

/-- How an invocation of `createTrialInstance` ends: it returns its Go error (`none` is
nil), or it panics. -/
inductive Outcome where
  | returned (err : Option Error)
  | panicked
deriving DecidableEq, Repr

/-- The calls that reach the external store: create, update and purge. -/
def Call.isStoreCall : Call → Bool
  | .Create _ => true
  | .Update _ => true
  | .DeleteExperimentInDB _ => true
  | _ => false

/-- Number of external-store calls in a list of calls. -/
def storeCalls (calls : List Call) : Nat :=
  (calls.filter Call.isStoreCall).length

/-- The receiver `r *ReconcileExperiment`: the collaborators the two methods call.
`SetControllerReference` writes nothing but the owner-reference list of the object,
so it returns the new list.  `LabelExperimentName` is `consts.LabelExperimentName`.
`loggerErrorReturns err msg keysAndValues` tells whether the call
`logger.Error(err, msg, keysAndValues...)` with a key/value list of odd length returns
(`true`) or panics (`false`). -/
structure ReconcileExperiment where
  LabelExperimentName : String
  loggerErrorReturns : Error → String → List String → Bool
  utilrandString : Nat → String
  SetControllerReference : Experiment → Trial → Except Error (List OwnerReference)
  GetRunSpecWithHyperParameters :
    Experiment → String → String → String → List apiv1alpha3.ParameterAssignment → Except Error String
  Decode : String → Nat → Except Error Unstructured
  GetMetricsCollectorManifest :
    String → String → String → String → List String →
      Option experimentsv1alpha3.MetricsCollectorSpec → Except Error String
  Create : Trial → Option Error
  DeleteExperimentInDB : Experiment → Option Error
  Update : Experiment → Option Error

/-- One iteration of the loop over the candidate's assignments: the pointer goes to `hps`,
a `common.ParameterAssignment` with its name and value goes to the trial. -/
def assignmentStep
    (st : List apiv1alpha3.ParameterAssignment × List common.ParameterAssignment)
    (p : apiv1alpha3.ParameterAssignment) :
    List apiv1alpha3.ParameterAssignment × List common.ParameterAssignment :=
  let pa : common.ParameterAssignment := { name := p.name, value := p.value }
  (st.1 ++ [p], st.2 ++ [pa])

/-- Lines 38-48: `hps` and the trial's assignment list after the guarded loop, from the
trial's list before it. -/
def collectAssignments (trialInstance : apiv1alpha3.Trial)
    (trialAssignments : List common.ParameterAssignment) :
    List apiv1alpha3.ParameterAssignment × List common.ParameterAssignment :=
  match trialInstance.spec with
  | some spec =>
    match spec.parameterAssignments with
    | some pas => pas.assignments.foldl assignmentStep ([], trialAssignments)
    | none => ([], trialAssignments)
  | none => ([], trialAssignments)

/-- Lines 67-71: the metric names, appended one at a time to a nil slice. -/
def metricNamesOf (objective : common.ObjectiveSpec) : List String :=
  objective.additionalMetricNames.foldl (fun acc mn => acc ++ [mn])
    ([] ++ [objective.objectiveMetricName])

/-- The method `createTrialInstance`: how the invocation ends and the calls issued. -/
def createTrialInstance (r : ReconcileExperiment) (expInstance : Experiment)
    (trialInstance : apiv1alpha3.Trial) : Outcome × List Call :=
  let BUFSIZE := 1024
  let trial : Trial := {}
  let trial := { trial with name := expInstance.name ++ "-" ++ r.utilrandString 8 }
  let trial := { trial with namespace_ := expInstance.namespace_ }
  let trial := { trial with labels := [(r.LabelExperimentName, expInstance.name)] }
  let calls := [Call.SetControllerReference expInstance trial]
  match r.SetControllerReference expInstance trial with
  | .error err => (.returned (some err), calls)
  | .ok refs =>
    let trial := { trial with ownerReferences := refs }
    let trial := { trial with spec := { trial.spec with objective := expInstance.spec.objective } }
    let st := collectAssignments trialInstance trial.spec.parameterAssignments
    let hps := st.1
    let trial := { trial with spec := { trial.spec with parameterAssignments := st.2 } }
    let calls := calls ++
      [Call.GetRunSpecWithHyperParameters expInstance expInstance.name trial.name trial.namespace_ hps]
    match r.GetRunSpecWithHyperParameters expInstance expInstance.name trial.name trial.namespace_ hps with
    | .error err =>
      let calls := calls ++
        [Call.LoggerError err "Fail to get RunSpec from experiment" [expInstance.name]]
      if r.loggerErrorReturns err "Fail to get RunSpec from experiment" [expInstance.name] then
        (.returned (some err), calls)
      else (.panicked, calls)
    | .ok runSpec =>
      let trial := { trial with spec := { trial.spec with runSpec := runSpec } }
      let trial :=
        match expInstance.spec.trialTemplate with
        | some tt => { trial with spec := { trial.spec with retainRun := tt.retain } }
        | none => trial
      let calls := calls ++ [Call.Decode runSpec BUFSIZE]
      match r.Decode runSpec BUFSIZE with
      | .error err => (.returned (some ("Invalid spec.trialTemplate: " ++ err ++ ".")), calls)
      | .ok job =>
        let metricNames := metricNamesOf expInstance.spec.objective
        let calls := calls ++
          [Call.GetMetricsCollectorManifest expInstance.name trial.name job.GetKind trial.namespace_
            metricNames expInstance.spec.metricsCollectorSpec]
        match r.GetMetricsCollectorManifest expInstance.name trial.name job.GetKind trial.namespace_
            metricNames expInstance.spec.metricsCollectorSpec with
        | .error err => (.returned (some err), calls)
        | .ok mcSpec =>
          let trial := { trial with spec := { trial.spec with metricsCollectorSpec := mcSpec } }
          let trial :=
            match expInstance.spec.metricsCollectorSpec with
            | some mc => { trial with spec := { trial.spec with retainMetricsCollector := mc.retain } }
            | none => trial
          let trial :=
            match expInstance.spec.metricsCollectorSpec with
            | some mc =>
              { trial with spec := { trial.spec with
                  metricsCollector := { collector := mc.collector, source := mc.source } } }
            | none => trial
          let calls := calls ++ [Call.Create trial]
          match r.Create trial with
          | some err => (.returned (some err), calls)
          | none => (.returned none, calls)

/-- What `updateFinalizers` leaves behind: the two Go results, the experiment object as the
method leaves it in memory, and the calls issued. -/
structure UpdateOutcome where
  result : Result
  err : Option Error
  inst : Experiment
  calls : List Call
deriving DecidableEq, Repr

/-- The method `updateFinalizers`. -/
def updateFinalizers (r : ReconcileExperiment) (inst : Experiment) (finalizers : List String) :
    UpdateOutcome :=
  let purge : Option Error × List Call :=
    if !IsZero inst.deletionTimestamp then
      (r.DeleteExperimentInDB inst, [Call.DeleteExperimentInDB inst])
    else (none, [])
  match purge.1 with
  | some err => { result := {}, err := some err, inst := inst, calls := purge.2 }
  | none =>
    let inst := inst.SetFinalizers finalizers
    let calls := purge.2 ++ [Call.Update inst]
    match r.Update inst with
    | some err => { result := {}, err := some err, inst := inst, calls := calls }
    | none => { result := { requeue := true }, err := none, inst := inst, calls := calls }

/-! ## Named intermediate values

The values the method computes on its way, named so that the theorems can speak of them. -/

/-- Line 27: the generated trial name. -/
def trialName (r : ReconcileExperiment) (expInstance : Experiment) : String :=
  expInstance.name ++ "-" ++ r.utilrandString 8

/-- Lines 26-29: the trial as it is handed to the linker. -/
def newTrial (r : ReconcileExperiment) (expInstance : Experiment) : Trial :=
  { name := trialName r expInstance,
    namespace_ := expInstance.namespace_,
    labels := [(r.LabelExperimentName, expInstance.name)] }

/-- The candidate's assignment list; empty when the spec or its assignment section is nil. -/
def candidateAssignments (trialInstance : apiv1alpha3.Trial) : List apiv1alpha3.ParameterAssignment :=
  match trialInstance.spec with
  | some spec =>
    match spec.parameterAssignments with
    | some pas => pas.assignments
    | none => []
  | none => []

/-- The trial's retain flag for the run: the template's flag, or the zero value. -/
def retainRunOf (expInstance : Experiment) : Bool :=
  match expInstance.spec.trialTemplate with
  | some tt => tt.retain
  | none => false

/-- The trial's retain flag for the metrics collector: the section's flag, or the zero value. -/
def retainMetricsCollectorOf (expInstance : Experiment) : Bool :=
  match expInstance.spec.metricsCollectorSpec with
  | some mc => mc.retain
  | none => false

/-- The trial's collector and source: those of the experiment's section, or the zero value. -/
def metricsCollectorOf (expInstance : Experiment) : trialsv1alpha3.MetricsCollector :=
  match expInstance.spec.metricsCollectorSpec with
  | some mc => { collector := mc.collector, source := mc.source }
  | none => {}

/-- The trial as it is handed to the create call. -/
def assembledTrial (r : ReconcileExperiment) (expInstance : Experiment)
    (trialInstance : apiv1alpha3.Trial) (refs : List OwnerReference) (runSpec mcSpec : String) : Trial :=
  { name := trialName r expInstance,
    namespace_ := expInstance.namespace_,
    labels := [(r.LabelExperimentName, expInstance.name)],
    ownerReferences := refs,
    spec :=
      { objective := expInstance.spec.objective,
        parameterAssignments :=
          (candidateAssignments trialInstance).map (fun p => { name := p.name, value := p.value }),
        runSpec := runSpec,
        retainRun := retainRunOf expInstance,
        metricsCollectorSpec := mcSpec,
        retainMetricsCollector := retainMetricsCollectorOf expInstance,
        metricsCollector := metricsCollectorOf expInstance } }

/-- The link call of an invocation. -/
def linkCall (r : ReconcileExperiment) (e : Experiment) : Call :=
  Call.SetControllerReference e (newTrial r e)

/-- The render call of an invocation. -/
def renderCall (r : ReconcileExperiment) (e : Experiment) (ti : apiv1alpha3.Trial) : Call :=
  Call.GetRunSpecWithHyperParameters e e.name (trialName r e) e.namespace_ (candidateAssignments ti)

/-- The logger call of line 52, for a render error. -/
def renderLogCall (e : Experiment) (err : Error) : Call :=
  Call.LoggerError err "Fail to get RunSpec from experiment" [e.name]

/-- The collector-spec call of an invocation, for a decoded job. -/
def buildCall (r : ReconcileExperiment) (e : Experiment) (job : Unstructured) : Call :=
  Call.GetMetricsCollectorManifest e.name (trialName r e) job.GetKind e.namespace_
    (e.spec.objective.objectiveMetricName :: e.spec.objective.additionalMetricNames)
    e.spec.metricsCollectorSpec

/-! ## Concrete collaborators and inputs -/

/-- A reconciler whose collaborators all succeed: the linker returns one controller reference
to the owner, the generator returns a one-line manifest, the decoder reads a `Job`. -/
def okReconciler : ReconcileExperiment :=
  { LabelExperimentName := "experiment-name",
    loggerErrorReturns := fun _ _ _ => true,
    utilrandString := fun n => String.mk (List.replicate n 'x'),
    SetControllerReference := fun owner _ =>
      .ok [{ apiVersion := "kubeflow.org/v1alpha3", kind := "Experiment", name := owner.name,
             uid := owner.uid, controller := true, blockOwnerDeletion := true }],
    GetRunSpecWithHyperParameters := fun _ _ _ _ _ => .ok "kind: Job",
    Decode := fun _ _ => .ok { kind := "Job" },
    GetMetricsCollectorManifest := fun _ _ _ _ _ _ => .ok "kind: CronJob",
    Create := fun _ => none,
    DeleteExperimentInDB := fun _ => none,
    Update := fun _ => none }

/-- The template generator meets a placeholder without a value. -/
def renderFailingReconciler : ReconcileExperiment :=
  { okReconciler with
    GetRunSpecWithHyperParameters := fun _ _ _ _ _ => .error "map has no entry for key unset" }

/-- The template generator fails in the same way and the logger has the development sink,
which panics on a key/value list of odd length. -/
def renderFailingDevelopmentReconciler : ReconcileExperiment :=
  { renderFailingReconciler with loggerErrorReturns := fun _ _ _ => false }

/-- The rendered text is not a manifest. -/
def decodeFailingReconciler : ReconcileExperiment :=
  { okReconciler with Decode := fun _ _ => .error "could not get version/kind" }

/-- The purge of the experiment's record fails. -/
def purgeFailingReconciler : ReconcileExperiment :=
  { okReconciler with DeleteExperimentInDB := fun _ => some "db unavailable" }

/-- The store rejects the update. -/
def updateFailingReconciler : ReconcileExperiment :=
  { okReconciler with Update := fun _ => some "the object has been modified" }

/-- Experiment `exp1` in namespace `ns`, not being deleted, with a template section and no
metrics-collector section. -/
def exp1 : Experiment :=
  { name := "exp1", namespace_ := "ns", uid := "uid-1",
    deletionTimestamp := none,
    finalizers := [],
    spec :=
      { objective :=
          { type := "maximize", goal := some "0.99", objectiveMetricName := "accuracy",
            additionalMetricNames := ["loss", "f1"] },
        trialTemplate := some { retain := true, goTemplate := "kind: Job" },
        metricsCollectorSpec := none } }

/-- The same experiment with a deletion timestamp and one finalizer. -/
def exp1Deleting : Experiment :=
  { exp1 with deletionTimestamp := some { sec := 63700000000, nsec := 0 },
              finalizers := ["update-prometheus-metrics"] }

/-- A candidate with the assignments `lr = 0.1` and `batch = 32`. -/
def candidate : apiv1alpha3.Trial :=
  { name := "",
    spec := some
      { parameterAssignments := some
          { assignments := [{ name := "lr", value := "0.1" }, { name := "batch", value := "32" }] } } }

/-- A candidate without a spec. -/
def candidateNoSpec : apiv1alpha3.Trial :=
  { name := "", spec := none }

/-! ## The loops -/

theorem foldl_assignmentStep (l : List apiv1alpha3.ParameterAssignment)
    (hps : List apiv1alpha3.ParameterAssignment) (pas : List common.ParameterAssignment) :
    l.foldl assignmentStep (hps, pas)
      = (hps ++ l, pas ++ l.map (fun p => { name := p.name, value := p.value })) := by
  induction l generalizing hps pas with
  | nil => simp
  | cons p l ih => simp [List.foldl, assignmentStep, ih]

theorem collectAssignments_eq (ti : apiv1alpha3.Trial) (init : List common.ParameterAssignment) :
    collectAssignments ti init
      = (candidateAssignments ti,
         init ++ (candidateAssignments ti).map (fun p => { name := p.name, value := p.value })) := by
  obtain ⟨name, spec⟩ := ti
  cases spec with
  | none => simp [collectAssignments, candidateAssignments]
  | some spec =>
    obtain ⟨pas⟩ := spec
    cases pas with
    | none => simp [collectAssignments, candidateAssignments]
    | some pas => simp [collectAssignments, candidateAssignments, foldl_assignmentStep]

theorem foldl_append_singleton (l acc : List String) :
    l.foldl (fun acc mn => acc ++ [mn]) acc = acc ++ l := by
  induction l generalizing acc with
  | nil => simp
  | cons a l ih => simp [List.foldl, ih]

theorem metricNamesOf_eq (o : common.ObjectiveSpec) :
    metricNamesOf o = o.objectiveMetricName :: o.additionalMetricNames := by
  simp [metricNamesOf, foldl_append_singleton]

/-! ## The five ways through `createTrialInstance` -/

theorem createTrialInstance_link_error (r : ReconcileExperiment) (e : Experiment)
    (ti : apiv1alpha3.Trial) (err : Error)
    (hlink : r.SetControllerReference e (newTrial r e) = .error err) :
    createTrialInstance r e ti = (.returned (some err), [linkCall r e]) := by
  simp only [newTrial, trialName] at hlink
  simp [createTrialInstance, linkCall, newTrial, trialName, hlink]

theorem createTrialInstance_render_error (r : ReconcileExperiment) (e : Experiment)
    (ti : apiv1alpha3.Trial) (refs : List OwnerReference) (err : Error)
    (hlink : r.SetControllerReference e (newTrial r e) = .ok refs)
    (hrender : r.GetRunSpecWithHyperParameters e e.name (trialName r e) e.namespace_
      (candidateAssignments ti) = .error err) :
    createTrialInstance r e ti
      = (if r.loggerErrorReturns err "Fail to get RunSpec from experiment" [e.name] then
           .returned (some err)
         else .panicked,
         [linkCall r e, renderCall r e ti, renderLogCall e err]) := by
  simp only [newTrial, trialName] at hlink hrender
  cases hlog : r.loggerErrorReturns err "Fail to get RunSpec from experiment" [e.name] <;>
    simp [createTrialInstance, linkCall, renderCall, renderLogCall, newTrial, trialName, hlink,
      hrender, hlog, collectAssignments_eq]

theorem createTrialInstance_decode_error (r : ReconcileExperiment) (e : Experiment)
    (ti : apiv1alpha3.Trial) (refs : List OwnerReference) (runSpec : String) (err : Error)
    (hlink : r.SetControllerReference e (newTrial r e) = .ok refs)
    (hrender : r.GetRunSpecWithHyperParameters e e.name (trialName r e) e.namespace_
      (candidateAssignments ti) = .ok runSpec)
    (hdecode : r.Decode runSpec 1024 = .error err) :
    createTrialInstance r e ti
      = (.returned (some ("Invalid spec.trialTemplate: " ++ err ++ ".")),
         [linkCall r e, renderCall r e ti, Call.Decode runSpec 1024]) := by
  simp only [newTrial, trialName] at hlink hrender
  simp [createTrialInstance, linkCall, renderCall, newTrial, trialName, hlink, hrender, hdecode,
    collectAssignments_eq]

theorem createTrialInstance_build_error (r : ReconcileExperiment) (e : Experiment)
    (ti : apiv1alpha3.Trial) (refs : List OwnerReference) (runSpec : String) (job : Unstructured)
    (err : Error)
    (hlink : r.SetControllerReference e (newTrial r e) = .ok refs)
    (hrender : r.GetRunSpecWithHyperParameters e e.name (trialName r e) e.namespace_
      (candidateAssignments ti) = .ok runSpec)
    (hdecode : r.Decode runSpec 1024 = .ok job)
    (hbuild : r.GetMetricsCollectorManifest e.name (trialName r e) job.GetKind e.namespace_
      (e.spec.objective.objectiveMetricName :: e.spec.objective.additionalMetricNames)
      e.spec.metricsCollectorSpec = .error err) :
    createTrialInstance r e ti
      = (.returned (some err),
         [linkCall r e, renderCall r e ti, Call.Decode runSpec 1024, buildCall r e job]) := by
  simp only [newTrial, trialName] at hlink hrender hbuild
  cases htt : e.spec.trialTemplate <;>
    simp [createTrialInstance, linkCall, renderCall, buildCall, newTrial, trialName, hlink,
      hrender, hdecode, hbuild, collectAssignments_eq, metricNamesOf_eq, htt]

theorem createTrialInstance_create (r : ReconcileExperiment) (e : Experiment)
    (ti : apiv1alpha3.Trial) (refs : List OwnerReference) (runSpec : String) (job : Unstructured)
    (mcSpec : String)
    (hlink : r.SetControllerReference e (newTrial r e) = .ok refs)
    (hrender : r.GetRunSpecWithHyperParameters e e.name (trialName r e) e.namespace_
      (candidateAssignments ti) = .ok runSpec)
    (hdecode : r.Decode runSpec 1024 = .ok job)
    (hbuild : r.GetMetricsCollectorManifest e.name (trialName r e) job.GetKind e.namespace_
      (e.spec.objective.objectiveMetricName :: e.spec.objective.additionalMetricNames)
      e.spec.metricsCollectorSpec = .ok mcSpec) :
    createTrialInstance r e ti
      = (.returned (r.Create (assembledTrial r e ti refs runSpec mcSpec)),
         [linkCall r e, renderCall r e ti, Call.Decode runSpec 1024, buildCall r e job,
          Call.Create (assembledTrial r e ti refs runSpec mcSpec)]) := by
  simp only [newTrial, trialName] at hlink hrender hbuild
  have hT : ∀ (o : Option Error) (c : List Call),
      (match o with
        | some err => (Outcome.returned (some err), c)
        | none => (Outcome.returned none, c)) = (Outcome.returned o, c) := by
    intro o c; cases o <;> rfl
  cases htt : e.spec.trialTemplate <;> cases hmc : e.spec.metricsCollectorSpec <;>
    rw [hmc] at hbuild <;>
    simp [createTrialInstance, linkCall, renderCall, buildCall, newTrial, trialName, hlink,
      hrender, hdecode, hbuild, collectAssignments_eq, metricNamesOf_eq, assembledTrial,
      retainRunOf, retainMetricsCollectorOf, metricsCollectorOf, htt, hmc, hT]

theorem createTrialInstance_cases (r : ReconcileExperiment) (e : Experiment)
    (ti : apiv1alpha3.Trial) :
    (∃ err, r.SetControllerReference e (newTrial r e) = .error err ∧
      createTrialInstance r e ti = (.returned (some err), [linkCall r e])) ∨
    (∃ refs err, r.SetControllerReference e (newTrial r e) = .ok refs ∧
      createTrialInstance r e ti
        = (if r.loggerErrorReturns err "Fail to get RunSpec from experiment" [e.name] then
             .returned (some err)
           else .panicked,
           [linkCall r e, renderCall r e ti, renderLogCall e err])) ∨
    (∃ refs runSpec err, r.SetControllerReference e (newTrial r e) = .ok refs ∧
      createTrialInstance r e ti
        = (.returned (some ("Invalid spec.trialTemplate: " ++ err ++ ".")),
           [linkCall r e, renderCall r e ti, Call.Decode runSpec 1024])) ∨
    (∃ refs runSpec job err, r.SetControllerReference e (newTrial r e) = .ok refs ∧
      createTrialInstance r e ti
        = (.returned (some err),
           [linkCall r e, renderCall r e ti, Call.Decode runSpec 1024, buildCall r e job])) ∨
    (∃ refs runSpec job mcSpec, r.SetControllerReference e (newTrial r e) = .ok refs ∧
      createTrialInstance r e ti
        = (.returned (r.Create (assembledTrial r e ti refs runSpec mcSpec)),
           [linkCall r e, renderCall r e ti, Call.Decode runSpec 1024, buildCall r e job,
            Call.Create (assembledTrial r e ti refs runSpec mcSpec)])) := by
  rcases hlink : r.SetControllerReference e (newTrial r e) with err | refs
  · exact Or.inl ⟨err, rfl, createTrialInstance_link_error r e ti err hlink⟩
  rcases hrender : r.GetRunSpecWithHyperParameters e e.name (trialName r e) e.namespace_
      (candidateAssignments ti) with err | runSpec
  · exact Or.inr (Or.inl ⟨refs, err, rfl, createTrialInstance_render_error r e ti refs err hlink hrender⟩)
  rcases hdecode : r.Decode runSpec 1024 with err | job
  · exact Or.inr (Or.inr (Or.inl ⟨refs, runSpec, err, rfl,
      createTrialInstance_decode_error r e ti refs runSpec err hlink hrender hdecode⟩))
  rcases hbuild : r.GetMetricsCollectorManifest e.name (trialName r e) job.GetKind e.namespace_
      (e.spec.objective.objectiveMetricName :: e.spec.objective.additionalMetricNames)
      e.spec.metricsCollectorSpec with err | mcSpec
  · exact Or.inr (Or.inr (Or.inr (Or.inl ⟨refs, runSpec, job, err, rfl,
      createTrialInstance_build_error r e ti refs runSpec job err hlink hrender hdecode hbuild⟩)))
  · exact Or.inr (Or.inr (Or.inr (Or.inr ⟨refs, runSpec, job, mcSpec, rfl,
      createTrialInstance_create r e ti refs runSpec job mcSpec hlink hrender hdecode hbuild⟩)))

/-! ## Trial identity -/

/-- C1: when `createTrialInstance` succeeds (and the random generator returned the 8
characters it was asked for), its last call is the create call, no earlier call is a create
call, and the trial handed to it has the experiment's namespace, a name made of the
experiment's name, a dash and a suffix of exactly 8 characters, exactly one label, binding the
experiment-name key to the experiment's name, and carries the owner references the linker
returned when it was called, earlier in the same invocation, on that experiment and on the
trial of that name, namespace and label. -/
theorem createTrialInstance_trial_identity (r : ReconcileExperiment) (e : Experiment)
    (ti : apiv1alpha3.Trial)
    (hrand : (r.utilrandString 8).length = 8)
    (hok : (createTrialInstance r e ti).1 = .returned none) :
    ∃ (trial : Trial) (pre : List Call) (suffix : String),
      (createTrialInstance r e ti).2 = pre ++ [Call.Create trial] ∧
      (∀ t, Call.Create t ∉ pre) ∧
      trial.namespace_ = e.namespace_ ∧
      trial.name = e.name ++ "-" ++ suffix ∧
      suffix.length = 8 ∧
      trial.labels = [(r.LabelExperimentName, e.name)] ∧
      ∃ object : Trial,
        Call.SetControllerReference e object ∈ pre ∧
        object.name = trial.name ∧ object.namespace_ = trial.namespace_ ∧
        object.labels = trial.labels ∧ object.ownerReferences = [] ∧
        r.SetControllerReference e object = .ok trial.ownerReferences := by
  rcases createTrialInstance_cases r e ti with ⟨err, _, h⟩ | ⟨refs, err, _, h⟩ |
    ⟨refs, runSpec, err, _, h⟩ | ⟨refs, runSpec, job, err, _, h⟩ |
    ⟨refs, runSpec, job, mcSpec, hlink, h⟩
  · rw [h] at hok; simp at hok
  · rw [h] at hok; split at hok <;> simp at hok
  · rw [h] at hok; simp at hok
  · rw [h] at hok; simp at hok
  · refine ⟨assembledTrial r e ti refs runSpec mcSpec,
      [linkCall r e, renderCall r e ti, Call.Decode runSpec 1024, buildCall r e job],
      r.utilrandString 8, ?_, ?_, rfl, rfl, hrand, rfl, newTrial r e, ?_, rfl, rfl, rfl, rfl, hlink⟩
    · rw [h]; simp
    · intro t; simp [linkCall, renderCall, buildCall]
    · simp [linkCall]

theorem createTrialInstance_trial_identity_witness :
    (okReconciler.utilrandString 8).length = 8 ∧
    (createTrialInstance okReconciler exp1 candidate).1 = .returned none ∧
    ∃ (trial : Trial) (pre : List Call) (suffix : String),
      (createTrialInstance okReconciler exp1 candidate).2 = pre ++ [Call.Create trial] ∧
      (∀ t, Call.Create t ∉ pre) ∧
      trial.namespace_ = exp1.namespace_ ∧
      trial.name = exp1.name ++ "-" ++ suffix ∧
      suffix.length = 8 ∧
      trial.labels = [(okReconciler.LabelExperimentName, exp1.name)] ∧
      ∃ object : Trial,
        Call.SetControllerReference exp1 object ∈ pre ∧
        object.name = trial.name ∧ object.namespace_ = trial.namespace_ ∧
        object.labels = trial.labels ∧ object.ownerReferences = [] ∧
        okReconciler.SetControllerReference exp1 object = .ok trial.ownerReferences :=
  ⟨by decide, by decide,
    createTrialInstance_trial_identity okReconciler exp1 candidate (by decide) (by decide)⟩

/-! ## Failures before the write -/

/-- When the template generator fails and the logger call of line 52 does not return, the
invocation ends in a panic instead of returning the error; no store call has been issued. -/
theorem createTrialInstance_render_log_panic (r : ReconcileExperiment) (e : Experiment)
    (ti : apiv1alpha3.Trial) (refs : List OwnerReference) (err : Error)
    (hlink : r.SetControllerReference e (newTrial r e) = .ok refs)
    (hrender : r.GetRunSpecWithHyperParameters e e.name (trialName r e) e.namespace_
      (candidateAssignments ti) = .error err)
    (hlog : r.loggerErrorReturns err "Fail to get RunSpec from experiment" [e.name] = false) :
    (createTrialInstance r e ti).1 = .panicked ∧
    (createTrialInstance r e ti).2 = [linkCall r e, renderCall r e ti, renderLogCall e err] ∧
    storeCalls (createTrialInstance r e ti).2 = 0 := by
  rw [createTrialInstance_render_error r e ti refs err hlink hrender]
  simp [hlog, linkCall, renderCall, renderLogCall, storeCalls, Call.isStoreCall]

theorem createTrialInstance_render_log_panic_example :
    (createTrialInstance renderFailingDevelopmentReconciler exp1 candidate).1 = .panicked ∧
    storeCalls (createTrialInstance renderFailingDevelopmentReconciler exp1 candidate).2 = 0 := by
  decide

/-- C4: if the linker and the template generator succeed and the generated text does not
decode, `createTrialInstance` returns the error `Invalid spec.trialTemplate: <decode error>.`,
and its calls contain neither a call of the collector-spec generator nor a create call, nor
any other store call. -/
theorem createTrialInstance_invalid_template (r : ReconcileExperiment) (e : Experiment)
    (ti : apiv1alpha3.Trial) (refs : List OwnerReference) (runSpec : String) (err : Error)
    (hlink : r.SetControllerReference e (newTrial r e) = .ok refs)
    (hrender : r.GetRunSpecWithHyperParameters e e.name (trialName r e) e.namespace_
      (candidateAssignments ti) = .ok runSpec)
    (hdecode : r.Decode runSpec 1024 = .error err) :
    (createTrialInstance r e ti).1
      = .returned (some ("Invalid spec.trialTemplate: " ++ err ++ ".")) ∧
    (∀ a b c d names mc,
      Call.GetMetricsCollectorManifest a b c d names mc ∉ (createTrialInstance r e ti).2) ∧
    (∀ t, Call.Create t ∉ (createTrialInstance r e ti).2) ∧
    storeCalls (createTrialInstance r e ti).2 = 0 := by
  rw [createTrialInstance_decode_error r e ti refs runSpec err hlink hrender hdecode]
  simp [linkCall, renderCall, storeCalls, Call.isStoreCall]

theorem createTrialInstance_invalid_template_witness :
    (createTrialInstance decodeFailingReconciler exp1 candidate).1
      = .returned (some "Invalid spec.trialTemplate: could not get version/kind.") ∧
    (∀ a b c d names mc, Call.GetMetricsCollectorManifest a b c d names mc ∉
      (createTrialInstance decodeFailingReconciler exp1 candidate).2) ∧
    (∀ t, Call.Create t ∉ (createTrialInstance decodeFailingReconciler exp1 candidate).2) ∧
    storeCalls (createTrialInstance decodeFailingReconciler exp1 candidate).2 = 0 :=
  createTrialInstance_invalid_template decodeFailingReconciler exp1 candidate _ "kind: Job"
    "could not get version/kind" rfl rfl rfl

/-! ## Metric names -/

/-- C5: every call of the collector-spec generator issued by `createTrialInstance` carries the
metric name list `[objectiveMetricName] ++ additionalMetricNames`, of length one plus the
number of additional names; and the generator is called, with that list, whenever the linker
and the template generator succeed and the generated text decodes. -/
theorem createTrialInstance_metric_names (r : ReconcileExperiment) (e : Experiment)
    (ti : apiv1alpha3.Trial) :
    (∀ a b c d names mc,
      Call.GetMetricsCollectorManifest a b c d names mc ∈ (createTrialInstance r e ti).2 →
      names = [e.spec.objective.objectiveMetricName] ++ e.spec.objective.additionalMetricNames ∧
      names.length = 1 + e.spec.objective.additionalMetricNames.length) ∧
    (∀ refs runSpec job, r.SetControllerReference e (newTrial r e) = .ok refs →
      r.GetRunSpecWithHyperParameters e e.name (trialName r e) e.namespace_
        (candidateAssignments ti) = .ok runSpec →
      r.Decode runSpec 1024 = .ok job →
      Call.GetMetricsCollectorManifest e.name (trialName r e) job.GetKind e.namespace_
        ([e.spec.objective.objectiveMetricName] ++ e.spec.objective.additionalMetricNames)
        e.spec.metricsCollectorSpec ∈ (createTrialInstance r e ti).2) := by
  constructor
  · intro a b c d names mc hmem
    have hnames :
        names = [e.spec.objective.objectiveMetricName] ++ e.spec.objective.additionalMetricNames := by
      rcases createTrialInstance_cases r e ti with ⟨err, _, h⟩ | ⟨refs, err, _, h⟩ |
        ⟨refs, runSpec, err, _, h⟩ | ⟨refs, runSpec, job, err, _, h⟩ |
        ⟨refs, runSpec, job, mcSpec, _, h⟩ <;>
        rw [h] at hmem <;>
        simp [linkCall, renderCall, renderLogCall, buildCall] at hmem
      · simp [hmem]
      · simp [hmem]
    subst hnames
    simp [Nat.add_comm]
  · intro refs runSpec job hlink hrender hdecode
    rcases hbuild : r.GetMetricsCollectorManifest e.name (trialName r e) job.GetKind e.namespace_
        (e.spec.objective.objectiveMetricName :: e.spec.objective.additionalMetricNames)
        e.spec.metricsCollectorSpec with err | mcSpec
    · rw [createTrialInstance_build_error r e ti refs runSpec job err hlink hrender hdecode hbuild]
      simp [buildCall]
    · rw [createTrialInstance_create r e ti refs runSpec job mcSpec hlink hrender hdecode hbuild]
      simp [buildCall]

theorem createTrialInstance_metric_names_witness :
    Call.GetMetricsCollectorManifest "exp1" "exp1-xxxxxxxx" "Job" "ns" ["accuracy", "loss", "f1"] none
      ∈ (createTrialInstance okReconciler exp1 candidate).2 ∧
    ["accuracy", "loss", "f1"]
      = [exp1.spec.objective.objectiveMetricName] ++ exp1.spec.objective.additionalMetricNames ∧
    ["accuracy", "loss", "f1"].length = 1 + exp1.spec.objective.additionalMetricNames.length :=
  ⟨by decide,
    (createTrialInstance_metric_names okReconciler exp1 candidate).1
      "exp1" "exp1-xxxxxxxx" "Job" "ns" ["accuracy", "loss", "f1"] none (by decide)⟩

/-! ## Parameter assignments -/

theorem candidateAssignments_present (ti : apiv1alpha3.Trial) (s : apiv1alpha3.TrialSpec)
    (pas : apiv1alpha3.ParameterAssignments)
    (hs : ti.spec = some s) (hp : s.parameterAssignments = some pas) :
    candidateAssignments ti = pas.assignments := by
  simp [candidateAssignments, hs, hp]

theorem candidateAssignments_absent (ti : apiv1alpha3.Trial)
    (h : ti.spec = none ∨ ∃ s, ti.spec = some s ∧ s.parameterAssignments = none) :
    candidateAssignments ti = [] := by
  rcases h with h | ⟨s, hs, hp⟩
  · simp [candidateAssignments, h]
  · simp [candidateAssignments, hs, hp]

theorem createTrialInstance_render_hps (r : ReconcileExperiment) (e : Experiment)
    (ti : apiv1alpha3.Trial) (x : Experiment) (a b c : String)
    (hps : List apiv1alpha3.ParameterAssignment)
    (hmem : Call.GetRunSpecWithHyperParameters x a b c hps ∈ (createTrialInstance r e ti).2) :
    hps = candidateAssignments ti := by
  rcases createTrialInstance_cases r e ti with ⟨err, _, h⟩ | ⟨refs, err, _, h⟩ |
    ⟨refs, runSpec, err, _, h⟩ | ⟨refs, runSpec, job, err, _, h⟩ |
    ⟨refs, runSpec, job, mcSpec, _, h⟩ <;>
    rw [h] at hmem <;>
    simp [linkCall, renderCall, renderLogCall, buildCall] at hmem <;>
    exact hmem.2.2.2.2

theorem createTrialInstance_render_reached (r : ReconcileExperiment) (e : Experiment)
    (ti : apiv1alpha3.Trial) (refs : List OwnerReference)
    (hlink : r.SetControllerReference e (newTrial r e) = .ok refs) :
    renderCall r e ti ∈ (createTrialInstance r e ti).2 := by
  rcases createTrialInstance_cases r e ti with ⟨err, hl, h⟩ | ⟨refs, err, _, h⟩ |
    ⟨refs, runSpec, err, _, h⟩ | ⟨refs, runSpec, job, err, _, h⟩ |
    ⟨refs, runSpec, job, mcSpec, _, h⟩
  · rw [hlink] at hl; cases hl
  all_goals rw [h]; simp

theorem createTrialInstance_created_assignments (r : ReconcileExperiment) (e : Experiment)
    (ti : apiv1alpha3.Trial) (trial : Trial)
    (hmem : Call.Create trial ∈ (createTrialInstance r e ti).2) :
    trial.spec.parameterAssignments
      = (candidateAssignments ti).map (fun p => { name := p.name, value := p.value }) := by
  rcases createTrialInstance_cases r e ti with ⟨err, _, h⟩ | ⟨refs, err, _, h⟩ |
    ⟨refs, runSpec, err, _, h⟩ | ⟨refs, runSpec, job, err, _, h⟩ |
    ⟨refs, runSpec, job, mcSpec, _, h⟩ <;>
    rw [h] at hmem <;>
    simp [linkCall, renderCall, renderLogCall, buildCall] at hmem
  rw [hmem]; rfl

/-- C6: when the candidate has a spec with an assignment section, every call of the template
generator receives exactly the section's list, that call is issued as soon as the linker
succeeds, and every trial handed to the create call has an assignment list of the same
length whose i-th entry has the name and the value of the i-th candidate assignment; the
create call is reached when the other collaborators succeed.  When the candidate's spec or
its assignment section is nil, the generator receives the empty list, the trial handed to
the create call has no assignment, and the method still goes on to the generator and, the
collaborators succeeding, to the create call, whose result it returns. -/
theorem createTrialInstance_assignments (r : ReconcileExperiment) (e : Experiment)
    (ti : apiv1alpha3.Trial) :
    (∀ s pas, ti.spec = some s → s.parameterAssignments = some pas →
      (∀ x a b c hps,
        Call.GetRunSpecWithHyperParameters x a b c hps ∈ (createTrialInstance r e ti).2 →
        hps = pas.assignments) ∧
      (∀ refs, r.SetControllerReference e (newTrial r e) = .ok refs →
        Call.GetRunSpecWithHyperParameters e e.name (trialName r e) e.namespace_ pas.assignments
          ∈ (createTrialInstance r e ti).2) ∧
      (∀ trial, Call.Create trial ∈ (createTrialInstance r e ti).2 →
        trial.spec.parameterAssignments.length = pas.assignments.length ∧
        ∀ (i : Nat) (h1 : i < trial.spec.parameterAssignments.length)
          (h2 : i < pas.assignments.length),
          (trial.spec.parameterAssignments.get ⟨i, h1⟩).name = (pas.assignments.get ⟨i, h2⟩).name ∧
          (trial.spec.parameterAssignments.get ⟨i, h1⟩).value
            = (pas.assignments.get ⟨i, h2⟩).value) ∧
      (∀ refs runSpec job mcSpec, r.SetControllerReference e (newTrial r e) = .ok refs →
        r.GetRunSpecWithHyperParameters e e.name (trialName r e) e.namespace_ pas.assignments
          = .ok runSpec →
        r.Decode runSpec 1024 = .ok job →
        r.GetMetricsCollectorManifest e.name (trialName r e) job.GetKind e.namespace_
          (e.spec.objective.objectiveMetricName :: e.spec.objective.additionalMetricNames)
          e.spec.metricsCollectorSpec = .ok mcSpec →
        ∃ trial, Call.Create trial ∈ (createTrialInstance r e ti).2 ∧
          (createTrialInstance r e ti).1 = .returned (r.Create trial))) ∧
    ((ti.spec = none ∨ ∃ s, ti.spec = some s ∧ s.parameterAssignments = none) →
      (∀ x a b c hps,
        Call.GetRunSpecWithHyperParameters x a b c hps ∈ (createTrialInstance r e ti).2 →
        hps = []) ∧
      (∀ refs, r.SetControllerReference e (newTrial r e) = .ok refs →
        Call.GetRunSpecWithHyperParameters e e.name (trialName r e) e.namespace_ []
          ∈ (createTrialInstance r e ti).2) ∧
      (∀ trial, Call.Create trial ∈ (createTrialInstance r e ti).2 →
        trial.spec.parameterAssignments = []) ∧
      (∀ refs runSpec job mcSpec, r.SetControllerReference e (newTrial r e) = .ok refs →
        r.GetRunSpecWithHyperParameters e e.name (trialName r e) e.namespace_ [] = .ok runSpec →
        r.Decode runSpec 1024 = .ok job →
        r.GetMetricsCollectorManifest e.name (trialName r e) job.GetKind e.namespace_
          (e.spec.objective.objectiveMetricName :: e.spec.objective.additionalMetricNames)
          e.spec.metricsCollectorSpec = .ok mcSpec →
        ∃ trial, Call.Create trial ∈ (createTrialInstance r e ti).2 ∧
          trial.spec.parameterAssignments = [] ∧
          (createTrialInstance r e ti).1 = .returned (r.Create trial))) := by
  constructor
  · intro s pas hs hp
    have hc := candidateAssignments_present ti s pas hs hp
    refine ⟨?_, ?_, ?_, ?_⟩
    · intro x a b c hps hmem
      rw [← hc]; exact createTrialInstance_render_hps r e ti x a b c hps hmem
    · intro refs hlink
      have h := createTrialInstance_render_reached r e ti refs hlink
      rw [renderCall, hc] at h; exact h
    · intro trial hmem
      have h := createTrialInstance_created_assignments r e ti trial hmem
      rw [hc] at h
      refine ⟨by rw [h]; simp, ?_⟩
      intro i h1 h2
      simp [h]
    · intro refs runSpec job mcSpec hlink hrender hdecode hbuild
      rw [← hc] at hrender
      refine ⟨assembledTrial r e ti refs runSpec mcSpec, ?_, ?_⟩ <;>
        rw [createTrialInstance_create r e ti refs runSpec job mcSpec hlink hrender hdecode hbuild]
      simp
  · intro habs
    have hc := candidateAssignments_absent ti habs
    refine ⟨?_, ?_, ?_, ?_⟩
    · intro x a b c hps hmem
      rw [← hc]; exact createTrialInstance_render_hps r e ti x a b c hps hmem
    · intro refs hlink
      have h := createTrialInstance_render_reached r e ti refs hlink
      rw [renderCall, hc] at h; exact h
    · intro trial hmem
      have h := createTrialInstance_created_assignments r e ti trial hmem
      rw [hc] at h; simpa using h
    · intro refs runSpec job mcSpec hlink hrender hdecode hbuild
      rw [← hc] at hrender
      refine ⟨assembledTrial r e ti refs runSpec mcSpec, ?_, ?_, ?_⟩
      · rw [createTrialInstance_create r e ti refs runSpec job mcSpec hlink hrender hdecode hbuild]
        simp
      · simp [assembledTrial, hc]
      · rw [createTrialInstance_create r e ti refs runSpec job mcSpec hlink hrender hdecode hbuild]

theorem createTrialInstance_assignments_witness :
    Call.GetRunSpecWithHyperParameters exp1 "exp1" "exp1-xxxxxxxx" "ns"
        [{ name := "lr", value := "0.1" }, { name := "batch", value := "32" }]
      ∈ (createTrialInstance okReconciler exp1 candidate).2 ∧
    (∃ trial, Call.Create trial ∈ (createTrialInstance okReconciler exp1 candidate).2 ∧
      (createTrialInstance okReconciler exp1 candidate).1
        = .returned (okReconciler.Create trial)) ∧
    Call.GetRunSpecWithHyperParameters exp1 "exp1" "exp1-xxxxxxxx" "ns" []
      ∈ (createTrialInstance okReconciler exp1 candidateNoSpec).2 ∧
    (∃ trial, Call.Create trial ∈ (createTrialInstance okReconciler exp1 candidateNoSpec).2 ∧
      trial.spec.parameterAssignments = [] ∧
      (createTrialInstance okReconciler exp1 candidateNoSpec).1
        = .returned (okReconciler.Create trial)) :=
  ⟨((createTrialInstance_assignments okReconciler exp1 candidate).1 _ _ rfl rfl).2.1 _ rfl,
   ((createTrialInstance_assignments okReconciler exp1 candidate).1 _ _ rfl rfl).2.2.2
      _ "kind: Job" { kind := "Job" } "kind: CronJob" rfl rfl rfl rfl,
   ((createTrialInstance_assignments okReconciler exp1 candidateNoSpec).2 (Or.inl rfl)).2.1 _ rfl,
   ((createTrialInstance_assignments okReconciler exp1 candidateNoSpec).2 (Or.inl rfl)).2.2.2
      _ "kind: Job" { kind := "Job" } "kind: CronJob" rfl rfl rfl rfl⟩

/-! ## Retain flags -/

/-- C10: when `createTrialInstance` succeeds, its last call is the create call and the trial
handed to it has `retainRun` equal to the retain flag of the experiment's trial template
when that section is present and `false` when it is nil, and `retainMetricsCollector` equal
to the retain flag of the experiment's metrics-collector section when that section is
present and `false` when it is nil; each flag depends on its own section only. -/
theorem createTrialInstance_retain_flags (r : ReconcileExperiment) (e : Experiment)
    (ti : apiv1alpha3.Trial)
    (hok : (createTrialInstance r e ti).1 = .returned none) :
    ∃ (trial : Trial) (pre : List Call),
      (createTrialInstance r e ti).2 = pre ++ [Call.Create trial] ∧
      (∀ tt, e.spec.trialTemplate = some tt → trial.spec.retainRun = tt.retain) ∧
      (e.spec.trialTemplate = none → trial.spec.retainRun = false) ∧
      (∀ mc, e.spec.metricsCollectorSpec = some mc →
        trial.spec.retainMetricsCollector = mc.retain) ∧
      (e.spec.metricsCollectorSpec = none → trial.spec.retainMetricsCollector = false) := by
  rcases createTrialInstance_cases r e ti with ⟨err, _, h⟩ | ⟨refs, err, _, h⟩ |
    ⟨refs, runSpec, err, _, h⟩ | ⟨refs, runSpec, job, err, _, h⟩ |
    ⟨refs, runSpec, job, mcSpec, hlink, h⟩
  · rw [h] at hok; simp at hok
  · rw [h] at hok; split at hok <;> simp at hok
  · rw [h] at hok; simp at hok
  · rw [h] at hok; simp at hok
  · refine ⟨assembledTrial r e ti refs runSpec mcSpec,
      [linkCall r e, renderCall r e ti, Call.Decode runSpec 1024, buildCall r e job],
      ?_, ?_, ?_, ?_, ?_⟩
    · rw [h]; simp
    · intro tt htt; simp [assembledTrial, retainRunOf, htt]
    · intro htt; simp [assembledTrial, retainRunOf, htt]
    · intro mc hmc; simp [assembledTrial, retainMetricsCollectorOf, hmc]
    · intro hmc; simp [assembledTrial, retainMetricsCollectorOf, hmc]

theorem createTrialInstance_retain_flags_witness :
    (createTrialInstance okReconciler exp1 candidate).1 = .returned none ∧
    ∃ (trial : Trial) (pre : List Call),
      (createTrialInstance okReconciler exp1 candidate).2 = pre ++ [Call.Create trial] ∧
      (∀ tt, exp1.spec.trialTemplate = some tt → trial.spec.retainRun = tt.retain) ∧
      (exp1.spec.trialTemplate = none → trial.spec.retainRun = false) ∧
      (∀ mc, exp1.spec.metricsCollectorSpec = some mc →
        trial.spec.retainMetricsCollector = mc.retain) ∧
      (exp1.spec.metricsCollectorSpec = none → trial.spec.retainMetricsCollector = false) :=
  ⟨by decide, createTrialInstance_retain_flags okReconciler exp1 candidate (by decide)⟩

/-! ## Finalizers -/

/-- C2: when the deletion timestamp is set (not zero) and `DeleteExperimentInDB` fails,
`updateFinalizers` returns that error with the zero result, leaves the experiment, and so
its finalizers, as they were, and issues the purge call only: no update call. -/
theorem updateFinalizers_purge_error (r : ReconcileExperiment) (inst : Experiment)
    (finalizers : List String) (err : Error)
    (hdel : IsZero inst.deletionTimestamp = false)
    (hpurge : r.DeleteExperimentInDB inst = some err) :
    (updateFinalizers r inst finalizers).err = some err ∧
    (updateFinalizers r inst finalizers).result = {} ∧
    (updateFinalizers r inst finalizers).inst.finalizers = inst.finalizers ∧
    (updateFinalizers r inst finalizers).inst = inst ∧
    (∀ x, Call.Update x ∉ (updateFinalizers r inst finalizers).calls) ∧
    (updateFinalizers r inst finalizers).calls = [Call.DeleteExperimentInDB inst] := by
  simp [updateFinalizers, hdel, hpurge]

theorem updateFinalizers_purge_error_witness :
    IsZero exp1Deleting.deletionTimestamp = false ∧
    purgeFailingReconciler.DeleteExperimentInDB exp1Deleting = some "db unavailable" ∧
    (updateFinalizers purgeFailingReconciler exp1Deleting []).err = some "db unavailable" ∧
    (updateFinalizers purgeFailingReconciler exp1Deleting []).result = {} ∧
    (updateFinalizers purgeFailingReconciler exp1Deleting []).inst.finalizers
      = exp1Deleting.finalizers ∧
    (updateFinalizers purgeFailingReconciler exp1Deleting []).inst = exp1Deleting ∧
    (∀ x, Call.Update x ∉ (updateFinalizers purgeFailingReconciler exp1Deleting []).calls) ∧
    (updateFinalizers purgeFailingReconciler exp1Deleting []).calls
      = [Call.DeleteExperimentInDB exp1Deleting] :=
  ⟨by decide, rfl,
    updateFinalizers_purge_error purgeFailingReconciler exp1Deleting [] "db unavailable"
      (by decide) rfl⟩

/-- C7: when the deletion timestamp is unset (zero), `updateFinalizers` issues exactly one
call, the update, so no purge call; the experiment handed to the update is the given one
with its finalizers replaced by the target list; and when the update succeeds the method
returns the result with `requeue` true and no error. -/
theorem updateFinalizers_install (r : ReconcileExperiment) (inst : Experiment)
    (finalizers : List String)
    (hdel : IsZero inst.deletionTimestamp = true) :
    (∀ x, Call.DeleteExperimentInDB x ∉ (updateFinalizers r inst finalizers).calls) ∧
    (∃ u : Experiment, (updateFinalizers r inst finalizers).calls = [Call.Update u] ∧
      u.finalizers = finalizers ∧ u = { inst with finalizers := finalizers } ∧
      (r.Update u = none →
        (updateFinalizers r inst finalizers).result = { requeue := true } ∧
        (updateFinalizers r inst finalizers).err = none ∧
        (updateFinalizers r inst finalizers).inst.finalizers = finalizers)) := by
  refine ⟨?_, inst.SetFinalizers finalizers, ?_, rfl, rfl, ?_⟩
  · intro x
    cases hu : r.Update (inst.SetFinalizers finalizers) <;>
      simp [updateFinalizers, hdel, hu]
  · cases hu : r.Update (inst.SetFinalizers finalizers) <;>
      simp [updateFinalizers, hdel, hu]
  · intro hu
    simp only [updateFinalizers, hdel, hu]
    exact ⟨rfl, rfl, rfl⟩

theorem updateFinalizers_install_witness :
    IsZero exp1.deletionTimestamp = true ∧
    (∀ x, Call.DeleteExperimentInDB x ∉
      (updateFinalizers okReconciler exp1 ["update-prometheus-metrics"]).calls) ∧
    (∃ u : Experiment,
      (updateFinalizers okReconciler exp1 ["update-prometheus-metrics"]).calls = [Call.Update u] ∧
      u.finalizers = ["update-prometheus-metrics"] ∧
      u = { exp1 with finalizers := ["update-prometheus-metrics"] } ∧
      (okReconciler.Update u = none →
        (updateFinalizers okReconciler exp1 ["update-prometheus-metrics"]).result
          = { requeue := true } ∧
        (updateFinalizers okReconciler exp1 ["update-prometheus-metrics"]).err = none ∧
        (updateFinalizers okReconciler exp1 ["update-prometheus-metrics"]).inst.finalizers
          = ["update-prometheus-metrics"])) :=
  ⟨by decide, updateFinalizers_install okReconciler exp1 ["update-prometheus-metrics"] (by decide)⟩

/-- C9: on the non-deletion path (deletion timestamp zero) and on the deletion path after a
successful purge alike, when the store update fails `updateFinalizers` returns that error
together with the zero result, whose `requeue` flag is false. -/
theorem updateFinalizers_update_error (r : ReconcileExperiment) (inst : Experiment)
    (finalizers : List String) (err : Error)
    (hpath : IsZero inst.deletionTimestamp = true ∨
      (IsZero inst.deletionTimestamp = false ∧ r.DeleteExperimentInDB inst = none))
    (hupdate : r.Update (inst.SetFinalizers finalizers) = some err) :
    (updateFinalizers r inst finalizers).err = some err ∧
    (updateFinalizers r inst finalizers).result = {} ∧
    (updateFinalizers r inst finalizers).result.requeue = false := by
  rcases hpath with hdel | ⟨hdel, hpurge⟩
  · simp [updateFinalizers, hdel, hupdate]
  · simp [updateFinalizers, hdel, hpurge, hupdate]

theorem updateFinalizers_update_error_witness :
    ((updateFinalizers updateFailingReconciler exp1 ["f"]).err
        = some "the object has been modified" ∧
      (updateFinalizers updateFailingReconciler exp1 ["f"]).result = {} ∧
      (updateFinalizers updateFailingReconciler exp1 ["f"]).result.requeue = false) ∧
    ((updateFinalizers updateFailingReconciler exp1Deleting []).err
        = some "the object has been modified" ∧
      (updateFinalizers updateFailingReconciler exp1Deleting []).result = {} ∧
      (updateFinalizers updateFailingReconciler exp1Deleting []).result.requeue = false) :=
  ⟨updateFinalizers_update_error updateFailingReconciler exp1 ["f"]
      "the object has been modified" (Or.inl (by decide)) rfl,
   updateFinalizers_update_error updateFailingReconciler exp1Deleting []
      "the object has been modified" (Or.inr ⟨by decide, rfl⟩) rfl⟩

/-! ## Store calls per invocation -/

/-- C8, as stated, fails: for an experiment with a deletion timestamp, a purge that succeeds
and an update that succeeds, `updateFinalizers` issues two store calls, the purge and then
the update. -/
theorem updateFinalizers_two_store_calls :
    (updateFinalizers okReconciler exp1Deleting []).calls
      = [Call.DeleteExperimentInDB exp1Deleting,
         Call.Update { exp1Deleting with finalizers := [] }] ∧
    storeCalls (updateFinalizers okReconciler exp1Deleting []).calls = 2 ∧
    ¬ storeCalls (updateFinalizers okReconciler exp1Deleting []).calls ≤ 1 := by
  decide

/-- C8, amended: every invocation of `createTrialInstance` issues at most one store call.
Every invocation of `updateFinalizers` issues exactly one store call when the deletion
timestamp is zero (the update) or when the purge fails (the purge), and exactly two, the
purge followed by the update, when the deletion timestamp is set and the purge succeeds. -/
theorem store_calls_per_invocation (r : ReconcileExperiment) :
    (∀ (e : Experiment) (ti : apiv1alpha3.Trial), storeCalls (createTrialInstance r e ti).2 ≤ 1) ∧
    (∀ (inst : Experiment) (finalizers : List String),
      (updateFinalizers r inst finalizers).calls
        = (if IsZero inst.deletionTimestamp then [Call.Update (inst.SetFinalizers finalizers)]
           else if (r.DeleteExperimentInDB inst).isSome then [Call.DeleteExperimentInDB inst]
           else [Call.DeleteExperimentInDB inst, Call.Update (inst.SetFinalizers finalizers)]) ∧
      storeCalls (updateFinalizers r inst finalizers).calls
        = (if IsZero inst.deletionTimestamp then 1
           else if (r.DeleteExperimentInDB inst).isSome then 1 else 2)) := by
  constructor
  · intro e ti
    rcases createTrialInstance_cases r e ti with ⟨err, _, h⟩ | ⟨refs, err, _, h⟩ |
      ⟨refs, runSpec, err, _, h⟩ | ⟨refs, runSpec, job, err, _, h⟩ |
      ⟨refs, runSpec, job, mcSpec, _, h⟩ <;>
      rw [h] <;>
      simp [storeCalls, linkCall, renderCall, renderLogCall, buildCall, Call.isStoreCall]
  · intro inst finalizers
    cases hdel : IsZero inst.deletionTimestamp <;>
      cases hpurge : r.DeleteExperimentInDB inst <;>
      cases hu : r.Update (inst.SetFinalizers finalizers) <;>
      simp [updateFinalizers, hdel, hpurge, hu, storeCalls, Call.isStoreCall]

end Katib
